import Mathlib

/-!
Verification of the boat-hauling record keeper
(`ECM_Haul_Streamlit_Cleaned.py`, `ECM_Haul_Streamlit_v2.py`).

Shallow embedding conventions:
* Python runtime values that may hold several types are modelled by `PyVal`
  (strings, numbers as `Rat`, and `None`).
* Python exceptions are modelled by `PyError`; a fallible computation returns
  `Except PyError α`.
* The nondeterministic environment calls `uuid.uuid4()` and `datetime.now()`
  are modelled by explicit `freshId` / `now` string parameters.
* `float(x)` and `datetime.strptime(s, "%Y-%m-%d %H:%M")` are builtins; they
  are modelled by `pyFloat` and `strptimeYmdHM` below, faithful to CPython on
  plain ASCII decimal input (scientific notation, `inf`/`nan`, underscores and
  non-ASCII digits are outside the inputs exercised here).
* Python `dict`s keyed by strings are modelled as association lists in
  insertion order; keyword-argument binding of `cls(**data)` is modelled
  explicitly, including the `TypeError` on an unexpected keyword.
-/

/-- A Python runtime value, as far as the program stores or passes them:
a string, a number (`int`/`float`, modelled as `Rat`), or `None`. -/
inductive PyVal where
  | str (s : String)
  | num (q : Rat)
  | none
deriving DecidableEq

/-- Python exceptions raised by the program or the builtins it calls. -/
inductive PyError where
  | valueError (msg : String)
  | typeError (msg : String)
  | nameError (name : String)
  | keyError (key : String)
  | ioError
  | unicodeDecodeError
deriving DecidableEq

deriving instance DecidableEq for Except

/-- A Python `dict` with string keys, in insertion order. -/
abbrev Dict : Type := List (String × PyVal)

/-- First-occurrence lookup in an association list (Python `dict` access;
Python dicts have unique keys, so first occurrence is the value). -/
def dlookup (d : Dict) (k : String) : Option PyVal :=
  (d.find? (fun kv => kv.1 = k)).map Prod.snd

/-- `d[k] = v` on a Python dict: overwrite in place if the key exists,
otherwise append (insertion order is preserved). -/
def dictInsert {α : Type} (d : List (String × α)) (k : String) (v : α) :
    List (String × α) :=
  if d.any (fun kv => kv.1 = k) then
    d.map (fun kv => if kv.1 = k then (k, v) else kv)
  else d ++ [(k, v)]

/-- Evaluating an unbound local name raises `NameError`. -/
def unboundLocal (n : String) : Except PyError PyVal :=
  Except.error (PyError.nameError n)

/-- The characters stripped by Python `str.strip()` on the inputs in scope. -/
def isSpaceChar (c : Char) : Bool :=
  c = ' ' || c = '\t' || c = '\n' || c = '\r'

/-- Python `str.lower()` (ASCII range, which is all the program compares). -/
def pyLower (s : String) : String :=
  String.mk (s.data.map Char.toLower)

/-- Python `str.strip()`. -/
def pyStrip (s : String) : String :=
  String.mk (((s.data.dropWhile isSpaceChar).reverse.dropWhile isSpaceChar).reverse)

/-- Numeric value of a digit character. -/
def digitVal (c : Char) : Nat := c.toNat - 48

/-- Value of a list of digit characters read in base 10. -/
def digitsVal (ds : List Char) : Nat :=
  ds.foldl (fun acc c => acc * 10 + digitVal c) 0

/-- Python `float(s)` on a string: optional surrounding whitespace, optional
sign, then digits with an optional fractional part; anything else raises
`ValueError`. -/
def parseFloatChars (cs0 : List Char) : Option Rat :=
  let cs1 := cs0.dropWhile isSpaceChar
  let signAndRest : Bool × List Char :=
    match cs1 with
    | '-' :: t => (true, t)
    | '+' :: t => (false, t)
    | _ => (false, cs1)
  let ipAndRest := signAndRest.2.span Char.isDigit
  let fpAndRest : List Char × List Char :=
    match ipAndRest.2 with
    | '.' :: t => t.span Char.isDigit
    | _ => ([], ipAndRest.2)
  let rest := fpAndRest.2.dropWhile isSpaceChar
  if rest = [] && (ipAndRest.1 ≠ [] || fpAndRest.1 ≠ []) then
    let mag : Rat :=
      (digitsVal ipAndRest.1 : Rat) +
        (digitsVal fpAndRest.1 : Rat) / ((10 : Rat) ^ fpAndRest.1.length)
    some (if signAndRest.1 then -mag else mag)
  else Option.none

/-- The builtin `float(x)` as called on `quoted_price`: numbers pass through,
strings are parsed (or raise `ValueError`), `None` raises `TypeError`. -/
def pyFloat : PyVal → Except PyError Rat
  | PyVal.num q => Except.ok q
  | PyVal.str s =>
    match parseFloatChars s.data with
    | some q => Except.ok q
    | Option.none => Except.error (PyError.valueError "could not convert string to float")
  | PyVal.none => Except.error (PyError.typeError "float() argument must be a string or a real number")

/-- A parsed calendar timestamp (what `datetime.strptime` produces for the
format `%Y-%m-%d %H:%M`). -/
structure DateTime where
  year : Nat
  month : Nat
  day : Nat
  hour : Nat
  minute : Nat
deriving DecidableEq

/-- Gregorian leap year, as `datetime` uses. -/
def isLeapYear (y : Nat) : Bool :=
  (y % 4 = 0 && y % 100 ≠ 0) || y % 400 = 0

/-- Days in a month, as `datetime` validates. -/
def daysInMonth (y mo : Nat) : Nat :=
  if mo = 2 then (if isLeapYear y then 29 else 28)
  else if mo = 4 || mo = 6 || mo = 9 || mo = 11 then 30
  else 31

/-- Consume exactly four digit characters (the `%Y` directive). -/
def take4Digits : List Char → Option (Nat × List Char)
  | a :: b :: c :: d :: rest =>
    if a.isDigit && b.isDigit && c.isDigit && d.isDigit then
      some (((digitVal a * 10 + digitVal b) * 10 + digitVal c) * 10 + digitVal d, rest)
    else Option.none
  | _ => Option.none

/-- Consume one or two digits: a two-digit read is accepted when `ok2` holds
of its value, otherwise fall back to a single digit accepted when `ok1`
holds — mirroring the backtracking of the `_strptime` regular expressions
for `%m`, `%d`, `%H` and `%M`. -/
def take2or1 (ok2 ok1 : Nat → Bool) : List Char → Option (Nat × List Char)
  | [] => Option.none
  | a :: rest =>
    if a.isDigit then
      match rest with
      | b :: rest2 =>
        if b.isDigit && ok2 (digitVal a * 10 + digitVal b) then
          some (digitVal a * 10 + digitVal b, rest2)
        else if ok1 (digitVal a) then some (digitVal a, rest)
        else Option.none
      | [] => if ok1 (digitVal a) then some (digitVal a, []) else Option.none
    else Option.none

/-- Consume one expected literal character. -/
def expectChar (c : Char) : List Char → Option (List Char)
  | x :: rest => if x = c then some rest else Option.none
  | [] => Option.none

/-- `datetime.strptime(s, "%Y-%m-%d %H:%M")`, returning `none` where CPython
raises `ValueError`: the whole string must match four year digits, a month
`1..12`, a day `1..31` valid for the month, an hour `0..23` and a minute
`0..59` (month/day/hour/minute may be written with one or two digits, as the
`_strptime` regular expressions allow), and the year must be at least 1. -/
def strptimeYmdHM (s : String) : Option DateTime := do
  let r0 := s.data
  let (y, r1) ← take4Digits r0
  let r2 ← expectChar '-' r1
  let (mo, r3) ← take2or1 (fun v => 1 ≤ v && v ≤ 12) (fun v => 1 ≤ v && v ≤ 9) r2
  let r4 ← expectChar '-' r3
  let (d, r5) ← take2or1 (fun v => 1 ≤ v && v ≤ 31) (fun v => 1 ≤ v && v ≤ 9) r4
  let r6 ← expectChar ' ' r5
  let (h, r7) ← take2or1 (fun v => v ≤ 23) (fun _ => true) r6
  let r8 ← expectChar ':' r7
  let (mi, r9) ← take2or1 (fun v => v ≤ 59) (fun _ => true) r8
  if r9 = [] && 1 ≤ y && 1 ≤ d && d ≤ daysInMonth y mo then
    some ⟨y, mo, d, h, mi⟩
  else Option.none

/-- Zero-pad a number to a width (the formatting `strftime` applies). -/
def padNum (w n : Nat) : String :=
  let s := toString n
  String.mk (List.replicate (w - s.length) '0') ++ s

/-- `dt.strftime("%Y-%m-%d %H:%M")`. -/
def DateTime.strftime (dt : DateTime) : String :=
  padNum 4 dt.year ++ "-" ++ padNum 2 dt.month ++ "-" ++ padNum 2 dt.day ++ " " ++
    padNum 2 dt.hour ++ ":" ++ padNum 2 dt.minute

/-- The `Customer` entity (`ECM_Haul_Streamlit_Cleaned.py`, lines 32–57).
`boat_length` and `boat_name` are stored verbatim, whatever value was passed,
so they keep the `PyVal` type; the remaining fields are strings in every use
the program makes of them. -/
structure Customer where
  customer_id : String
  name : String
  phone : String
  email : String
  address : String
  boat_make : String
  boat_model : String
  boat_length : PyVal
  boat_name : PyVal
deriving DecidableEq

/-- `Customer.__init__`: a falsy (`None` or empty) `customer_id` is replaced
by a fresh UUID string (`freshId`); all other fields are stored verbatim. -/
def Customer.init (freshId : String)
    (name phone email address boat_make boat_model : String)
    (boat_length : PyVal) (boat_name : PyVal := PyVal.str "")
    (customer_id : Option String := Option.none) : Customer :=
  { customer_id :=
      match customer_id with
      | some s => if s = "" then freshId else s
      | Option.none => freshId
    name := name, phone := phone, email := email, address := address
    boat_make := boat_make, boat_model := boat_model
    boat_length := boat_length, boat_name := boat_name }

/-- `Customer.to_dict`: the instance `__dict__`, in attribute-assignment
order. -/
def Customer.to_dict (c : Customer) : Dict :=
  [("customer_id", PyVal.str c.customer_id), ("name", PyVal.str c.name),
   ("phone", PyVal.str c.phone), ("email", PyVal.str c.email),
   ("address", PyVal.str c.address), ("boat_make", PyVal.str c.boat_make),
   ("boat_model", PyVal.str c.boat_model), ("boat_length", c.boat_length),
   ("boat_name", c.boat_name)]

/-- The parameter names of `Customer.__init__` (bindable as keywords). -/
def Customer.PARAM_NAMES : List String :=
  ["name", "phone", "email", "address", "boat_make", "boat_model",
   "boat_length", "boat_name", "customer_id"]

/-- Extract the string payload of a `PyVal` (for fields the program uses as
strings). -/
def asStr : PyVal → Option String
  | PyVal.str s => some s
  | _ => Option.none

/-- `Customer.from_dict(data) = Customer(**data)`: an unexpected key raises
`TypeError`, a missing required parameter raises `TypeError`, otherwise the
constructor runs on the bound values. The string-typed parameters are
required to be strings here (the program only ever passes strings). -/
def Customer.from_dict (freshId : String) (data : Dict) : Except PyError Customer :=
  if data.all (fun kv => Customer.PARAM_NAMES.contains kv.1) then
    match dlookup data "name", dlookup data "phone", dlookup data "email",
        dlookup data "address", dlookup data "boat_make",
        dlookup data "boat_model", dlookup data "boat_length" with
    | some nameV, some phoneV, some emailV, some addressV, some makeV,
        some modelV, some lengthV =>
      match asStr nameV, asStr phoneV, asStr emailV, asStr addressV,
          asStr makeV, asStr modelV with
      | some name, some phone, some email, some address, some bmake,
          some bmodel =>
        Except.ok (Customer.init freshId name phone email address bmake bmodel
          lengthV ((dlookup data "boat_name").getD (PyVal.str ""))
          ((dlookup data "customer_id").bind asStr))
      | _, _, _, _, _, _ => Except.error (PyError.typeError "non-string field")
    | _, _, _, _, _, _, _ =>
      Except.error (PyError.typeError "missing required argument")
  else Except.error (PyError.typeError "unexpected keyword argument")

/-- The `Job` entity (`ECM_Haul_Streamlit_Cleaned.py`, lines 60–103). -/
structure Job where
  job_id : String
  customer_id : String
  service_type : String
  scheduled_datetime : String
  origin_location : String
  destination_location : String
  quoted_price : Rat
  status : String
  notes : String
  created_at : String
  updated_at : String
deriving DecidableEq

/-- `Job.VALID_STATUSES` (the six-value enumeration of the cleaned file). -/
def Job.VALID_STATUSES : List String :=
  ["Scheduled", "In Progress", "Completed", "Cancelled", "Invoiced", "Paid"]

/-- The exact `ValueError` message raised on a malformed scheduled
timestamp. -/
def INVALID_DT_MSG : String :=
  "Invalid datetime format. Please use YYYY-MM-DD HH:MM (e.g., 2025-09-15 14:30)"

/-- `Job.__init__`: a falsy `job_id` is replaced by a fresh UUID (`freshId`);
`scheduled_datetime_str` is parsed with `strptime` and re-rendered with
`strftime` (raising `ValueError` with `INVALID_DT_MSG` on parse failure);
`quoted_price` goes through `float(...)`; a `status` outside
`VALID_STATUSES` is silently replaced by `"Scheduled"`; `created_at` and
`updated_at` are both set to the current clock reading (`now`). -/
def Job.init (freshId now : String)
    (customer_id service_type scheduled_datetime_str origin_location
      destination_location : String)
    (quoted_price : PyVal) (notes : String := "")
    (job_id : Option String := Option.none) (status : String := "Scheduled") :
    Except PyError Job :=
  let jid :=
    match job_id with
    | some s => if s = "" then freshId else s
    | Option.none => freshId
  match strptimeYmdHM scheduled_datetime_str with
  | Option.none => Except.error (PyError.valueError INVALID_DT_MSG)
  | some dt =>
    match pyFloat quoted_price with
    | Except.error e => Except.error e
    | Except.ok price =>
      Except.ok
        { job_id := jid, customer_id := customer_id, service_type := service_type
          scheduled_datetime := dt.strftime, origin_location := origin_location
          destination_location := destination_location, quoted_price := price
          status := if status ∈ Job.VALID_STATUSES then status else "Scheduled"
          notes := notes, created_at := now, updated_at := now }

/-- `Job.to_dict`: the instance `__dict__`, in attribute-assignment order. -/
def Job.to_dict (j : Job) : Dict :=
  [("job_id", PyVal.str j.job_id), ("customer_id", PyVal.str j.customer_id),
   ("service_type", PyVal.str j.service_type),
   ("scheduled_datetime", PyVal.str j.scheduled_datetime),
   ("origin_location", PyVal.str j.origin_location),
   ("destination_location", PyVal.str j.destination_location),
   ("quoted_price", PyVal.num j.quoted_price),
   ("status", PyVal.str j.status), ("notes", PyVal.str j.notes),
   ("created_at", PyVal.str j.created_at),
   ("updated_at", PyVal.str j.updated_at)]

/-- The parameter names of `Job.__init__` (bindable as keywords). -/
def Job.PARAM_NAMES : List String :=
  ["customer_id", "service_type", "scheduled_datetime_str", "origin_location",
   "destination_location", "quoted_price", "notes", "job_id", "status"]

/-- `Job.from_dict(data) = Job(**data)`: an unexpected key raises
`TypeError`, a missing required parameter raises `TypeError`, otherwise
`Job.__init__` runs on the bound values. -/
def Job.from_dict (freshId now : String) (data : Dict) : Except PyError Job :=
  if data.all (fun kv => Job.PARAM_NAMES.contains kv.1) then
    match dlookup data "customer_id", dlookup data "service_type",
        dlookup data "scheduled_datetime_str", dlookup data "origin_location",
        dlookup data "destination_location", dlookup data "quoted_price" with
    | some cidV, some svcV, some sdtV, some origV, some destV, some priceV =>
      match asStr cidV, asStr svcV, asStr sdtV, asStr origV, asStr destV with
      | some cid, some svc, some sdt, some orig, some dest =>
        Job.init freshId now cid svc sdt orig dest priceV
          (((dlookup data "notes").bind asStr).getD "")
          ((dlookup data "job_id").bind asStr)
          (((dlookup data "status").bind asStr).getD "Scheduled")
      | _, _, _, _, _ => Except.error (PyError.typeError "non-string field")
    | _, _, _, _, _, _ =>
      Except.error (PyError.typeError "missing required argument")
  else Except.error (PyError.typeError "unexpected keyword argument")

/-- `Job.update_status`: accept exactly the members of `VALID_STATUSES`;
on acceptance set `status` and refresh `updated_at` to the clock reading
`now`; on rejection return `false` leaving the job untouched. -/
def Job.update_status (j : Job) (new_status : String) (now : String) :
    Bool × Job :=
  if new_status ∈ Job.VALID_STATUSES then
    (true, { j with status := new_status, updated_at := now })
  else (false, j)

/-- Abstract content of a backing file: text that `json.load` parses to a
mapping of ids to flat records; decodable text on which `json.load` raises
`JSONDecodeError`; or bytes that are not valid UTF-8, on which reading the
text-mode file raises `UnicodeDecodeError` (a `ValueError` that is neither a
`JSONDecodeError` nor an `IOError`). -/
inductive FileContent where
  | parses (d : List (String × Dict))
  | badJson
  | undecodable
deriving DecidableEq

/-- Abstract state of a backing file path: absent (`os.path.exists` false),
present but unreadable (`open`/read raises `IOError`), or present with some
content. -/
inductive FileState where
  | missing
  | unreadable
  | present (c : FileContent)
deriving DecidableEq

/-- `load_data` of `ECM_Haul_Streamlit_Cleaned.py` (lines 12–21): a missing
path returns `{}`; `JSONDecodeError` and `IOError` are both caught and
return `{}`; but `UnicodeDecodeError` on undecodable bytes matches neither
handler and propagates. -/
def load_data : FileState → Except PyError (List (String × Dict))
  | FileState.missing => Except.ok []
  | FileState.unreadable => Except.ok []
  | FileState.present FileContent.badJson => Except.ok []
  | FileState.present FileContent.undecodable => Except.error PyError.unicodeDecodeError
  | FileState.present (FileContent.parses d) => Except.ok d

/-- `load_data` of `ECM_Haul_Streamlit_v2.py` (lines 14–22): a missing path
returns `{}`; only `json.JSONDecodeError` is caught, so an unreadable
existing file propagates the `IOError` and undecodable bytes propagate the
`UnicodeDecodeError`. -/
def load_data_v2 : FileState → Except PyError (List (String × Dict))
  | FileState.missing => Except.ok []
  | FileState.unreadable => Except.error PyError.ioError
  | FileState.present FileContent.badJson => Except.ok []
  | FileState.present FileContent.undecodable => Except.error PyError.unicodeDecodeError
  | FileState.present (FileContent.parses d) => Except.ok d

/-- The in-memory state of `BoatHaulingManager`: the two id-keyed mappings,
as insertion-ordered association lists. -/
structure Manager where
  customers : List (String × Customer)
  jobs : List (String × Job)
deriving DecidableEq

/-- `BoatHaulingManager.find_customer_by_id`. -/
def Manager.find_customer_by_id (m : Manager) (customer_id : String) :
    Option Customer :=
  (m.customers.find? (fun kv => kv.1 = customer_id)).map Prod.snd

/-- Substring test for Python `in` on strings: does `needle` occur in
`hay`? (`startsChars` is the prefix check.) -/
def startsChars : List Char → List Char → Bool
  | [], _ => true
  | _ :: _, [] => false
  | a :: as, b :: bs => a = b && startsChars as bs

/-- `needle in hay` on character lists. -/
def occursIn (needle : List Char) : List Char → Bool
  | [] => startsChars needle []
  | h :: t => startsChars needle (h :: t) || occursIn needle t

/-- Python `needle in hay` on strings. -/
def strContains (hay needle : String) : Bool :=
  occursIn needle.data hay.data

/-- `BoatHaulingManager.add_customer` (lines 116–127): after collecting the
six prompted fields, line 124 evaluates `Customer(name, phone, email,
address, boat_make, boat_model, boat_length, boat_name)` — but the locals
`boat_length` and `boat_name` were never assigned, so the argument
evaluation raises `NameError` before the constructor runs and nothing is
inserted. -/
def Manager.add_customer (m : Manager) (freshId : String)
    (name phone email address boat_make boat_model : String) :
    Except PyError (String × Manager) :=
  match unboundLocal "boat_length", unboundLocal "boat_name" with
  | Except.error e, _ => Except.error e
  | _, Except.error e => Except.error e
  | Except.ok boat_length, Except.ok boat_name =>
    let customer := Customer.init freshId name phone email address boat_make
      boat_model boat_length boat_name Option.none
    Except.ok (customer.customer_id,
      { m with customers := dictInsert m.customers customer.customer_id customer })

/-- `BoatHaulingManager.find_customer_interactive` (lines 146–169): lower the
search term; an empty term or no match returns `None`; exactly one match
returns it; multiple matches only print a list and fall through, returning
`None`. -/
def Manager.find_customer_interactive (m : Manager) (searchInput : String) :
    Option Customer :=
  let term := pyLower searchInput
  if term = "" then Option.none
  else
    match (m.customers.map Prod.snd).filter (fun c =>
        strContains (pyLower c.name) term || strContains (pyLower c.phone) term ||
          strContains (pyLower c.email) term) with
    | [c] => some c
    | _ => Option.none

/-- The interactive answers `add_job` consumes, one field per `input()`
prompt it can reach. -/
structure AddJobInputs where
  add_customer_now : String
  customer_id_input : String
  search_term : String
  add_as_new : String
  nc_name : String
  nc_phone : String
  nc_email : String
  nc_address : String
  nc_boat_make : String
  nc_boat_model : String
  service_type : String
  origin_location : String
  destination_location : String
deriving DecidableEq

/-- Result of an `add_job` call: the outcome (`ok (some jid)` = job
inserted, `ok none` = early return, `error` = uncaught exception), the
manager state afterwards, and the diagnostic lines printed. -/
structure AddJobResult where
  outcome : Except PyError (Option String)
  manager : Manager
  messages : List String
deriving DecidableEq

/-- The tail of `add_job` once a `customer_id` is resolved (lines 200–210):
`service_type`, `origin_location` and `destination_location` are read, then
line 204 evaluates `Job(customer_id, service_type, scheduled_datetime_str,
...)` — but `scheduled_datetime_str` (and `quoted_price`, `notes`) were
never assigned, so evaluating the argument raises `NameError`, which the
`except ValueError` / `except KeyError` handlers do not catch. -/
def addJobBody (m : Manager) (msgs : List String) (customer_id : String)
    (inp : AddJobInputs) : AddJobResult :=
  let _ := customer_id
  let _ := inp.service_type
  let _ := inp.origin_location
  let _ := inp.destination_location
  match unboundLocal "scheduled_datetime_str" with
  | Except.error e => { outcome := Except.error e, manager := m, messages := msgs }
  | Except.ok _ => { outcome := Except.ok Option.none, manager := m, messages := msgs }

/-- `BoatHaulingManager.add_job` (lines 171–210), with the interactive
prompts supplied through `inp` and fresh UUIDs through `freshCid`. -/
def Manager.add_job (m : Manager) (freshCid : String) (inp : AddJobInputs) :
    AddJobResult :=
  if m.customers.isEmpty then
    if pyLower inp.add_customer_now = "y" then
      match m.add_customer freshCid inp.nc_name inp.nc_phone inp.nc_email
          inp.nc_address inp.nc_boat_make inp.nc_boat_model with
      | Except.error e =>
        { outcome := Except.error e, manager := m
          messages := ["No customers available. Please add a customer first."] }
      | Except.ok (cid, m2) =>
        if cid = "" then
          { outcome := Except.ok Option.none, manager := m2
            messages := ["No customers available. Please add a customer first."] }
        else
          addJobBody m2 ["No customers available. Please add a customer first."]
            cid inp
    else
      { outcome := Except.ok Option.none, manager := m
        messages := ["No customers available. Please add a customer first."] }
  else if pyLower inp.customer_id_input = "search" then
    match m.find_customer_interactive inp.search_term with
    | Option.none =>
      { outcome := Except.ok Option.none, manager := m
        messages := ["No customer selected. Aborting job creation."] }
    | some c => addJobBody m [] c.customer_id inp
  else if m.customers.any (fun kv => kv.1 = inp.customer_id_input) then
    addJobBody m [] inp.customer_id_input inp
  else
    if pyLower inp.add_as_new = "y" then
      match m.add_customer freshCid inp.nc_name inp.nc_phone inp.nc_email
          inp.nc_address inp.nc_boat_make inp.nc_boat_model with
      | Except.error e =>
        { outcome := Except.error e, manager := m
          messages := ["Customer ID not found."] }
      | Except.ok (cid, m2) =>
        if cid = "" then
          { outcome := Except.ok Option.none, manager := m2
            messages := ["Customer ID not found."] }
        else addJobBody m2 ["Customer ID not found."] cid inp
    else
      { outcome := Except.ok Option.none, manager := m
        messages := ["Customer ID not found."] }

/-- Order-preserving numeric encoding of a parsed timestamp (the field
bounds enforced by `strptimeYmdHM` make this lexicographic in
year, month, day, hour, minute — i.e. chronological order). -/
def DateTime.encode (dt : DateTime) : Nat :=
  (((dt.year * 13 + dt.month) * 32 + dt.day) * 24 + dt.hour) * 60 + dt.minute

/-- Chronological key of a stored timestamp string (`0` on strings
`strptime` rejects; every timestamp the program stores parses). -/
def tsKey (s : String) : Nat :=
  match strptimeYmdHM s with
  | some dt => dt.encode
  | Option.none => 0

/-- Chronological order on stored timestamp strings. -/
def tsLE (a b : String) : Prop := tsKey a ≤ tsKey b

instance : DecidableRel tsLE := fun a b => Nat.decLe (tsKey a) (tsKey b)

/-- Sort key of a job: its parsed `scheduled_datetime` (`0` only on strings
`strptime` rejects, which `list_jobs` never sorts — it raises first). -/
def Job.scheduleKey (j : Job) : Nat :=
  match strptimeYmdHM j.scheduled_datetime with
  | some dt => dt.encode
  | Option.none => 0

/-- The comparison `list_jobs` sorts by: ascending parsed
`scheduled_datetime`. -/
def jobLE (a b : Job) : Prop := Job.scheduleKey a ≤ Job.scheduleKey b

instance : DecidableRel jobLE :=
  fun a b => Nat.decLe (Job.scheduleKey a) (Job.scheduleKey b)

instance : IsTotal Job jobLE :=
  ⟨fun a b => Nat.le_total (Job.scheduleKey a) (Job.scheduleKey b)⟩

instance : IsTrans Job jobLE := ⟨fun _ _ _ => Nat.le_trans⟩

/-- The effective status filter of `list_jobs` (lines 219–222): the stripped
input, dropped (`None`) when blank or not a member of `VALID_STATUSES`. -/
def statusFilterOf (filterInput : String) : Option String :=
  let fs0 := pyStrip filterInput
  if fs0 = "" then Option.none
  else if Job.VALID_STATUSES.contains fs0 then some fs0
  else Option.none

/-- The `jobs_to_display` list of `list_jobs`: the values of the job
mapping, kept when no effective filter survives or the status matches it
exactly. -/
def displayedJobs (m : Manager) (filterInput : String) : List Job :=
  (m.jobs.map Prod.snd).filter (fun j =>
    match statusFilterOf filterInput with
    | some f => j.status = f
    | Option.none => true)

/-- `BoatHaulingManager.list_jobs` (lines 213–240), returning the sequence
of jobs displayed: filter by exact status equality when an effective filter
survives, then sort ascending by parsed `scheduled_datetime` (Python
computes every sort key first, so one unparseable stored timestamp raises
`ValueError` before anything is displayed). -/
def Manager.list_jobs (m : Manager) (filterInput : String) :
    Except PyError (List Job) :=
  if m.jobs.isEmpty then Except.ok []
  else
    if (displayedJobs m filterInput).all
        (fun j => (strptimeYmdHM j.scheduled_datetime).isSome) then
      Except.ok (List.insertionSort jobLE (displayedJobs m filterInput))
    else
      Except.error (PyError.valueError "time data does not match format %Y-%m-%d %H:%M")

/-- `BoatHaulingManager.update_job_status` (lines 242–258): resolve the job
id, delegate to `Job.update_status`, store the updated job back (attribute
mutation on the shared object). -/
def Manager.update_job_status (m : Manager) (job_id new_status now : String) :
    Bool × Manager :=
  match (m.jobs.find? (fun kv => kv.1 = job_id)).map Prod.snd with
  | Option.none => (false, m)
  | some j =>
    let r := j.update_status new_status now
    (r.1, { m with jobs := dictInsert m.jobs job_id r.2 })

/-- The "View Jobs" branch of `ECM_Haul_Streamlit_v2.py` (lines 139–148):
take the session jobs (stored as dicts) in insertion order and, when the
selected filter is not `"All"`, keep exactly those whose `'status'` equals
it; the resulting list is displayed as-is — it is never sorted. -/
def view_jobs_v2 (jobs : List (String × Dict)) (status_filter : String) :
    List Dict :=
  if status_filter ≠ "All" then
    (jobs.map Prod.snd).filter
      (fun j => dlookup j "status" = some (PyVal.str status_filter))
  else jobs.map Prod.snd

/-- A v2 job record as the v2 `Job.to_dict` stores it in the session state
(attribute-assignment order of the v2 class). -/
def v2JobDict (jid sched : String) : Dict :=
  [("job_id", PyVal.str jid), ("customer_id", PyVal.str "C1"),
   ("service_type", PyVal.str "Haul"), ("scheduled_datetime", PyVal.str sched),
   ("origin_location", PyVal.str "Marina A"),
   ("destination_location", PyVal.str "Marina A"),
   ("quoted_price", PyVal.num 100), ("notes", PyVal.str ""),
   ("status", PyVal.str "Scheduled"),
   ("created_at", PyVal.str "2024-12-01 08:00"),
   ("updated_at", PyVal.str "2024-12-01 08:00")]

/-- The stored `scheduled_datetime` of a v2 job record. -/
def dictSched (d : Dict) : String :=
  ((dlookup d "scheduled_datetime").bind asStr).getD ""

/-- Chronological order on v2 job records by stored `scheduled_datetime`. -/
def dictTsLE (a b : Dict) : Prop := tsLE (dictSched a) (dictSched b)

instance : DecidableRel dictTsLE :=
  fun a b => Nat.decLe (tsKey (dictSched a)) (tsKey (dictSched b))

/-- A v2 session holding two jobs inserted out of chronological order. -/
def v2SampleJobs : List (String × Dict) :=
  [("J2", v2JobDict "J2" "2025-06-01 09:00"),
   ("J3", v2JobDict "J3" "2024-12-25 08:00")]

/-- A concrete job as the program builds them, used to instantiate the
universally quantified theorems below. -/
def sampleJob : Job :=
  { job_id := "J1", customer_id := "C1", service_type := "Haul Out",
    scheduled_datetime := "2025-09-15 14:30", origin_location := "Marina A",
    destination_location := "Yard B", quoted_price := 100,
    status := "Scheduled", notes := "", created_at := "2025-01-01 10:00",
    updated_at := "2025-01-01 10:00" }

/-- A concrete customer for the same purpose. -/
def sampleCustomer : Customer :=
  { customer_id := "C1", name := "John Smith", phone := "555-0100",
    email := "smith@example.com", address := "1 Dock St",
    boat_make := "Catalina", boat_model := "320",
    boat_length := PyVal.num 32, boat_name := PyVal.str "Osprey" }

/-- A concrete manager state holding the sample customer and job. -/
def sampleManager : Manager :=
  { customers := [("C1", sampleCustomer)], jobs := [("J1", sampleJob)] }

/-- C3: for every job and every `new_status` in the configured enumeration,
`update_status` succeeds and sets `status := new_status` whatever the current
status is (no transition topology is enforced), refreshing `updated_at` to
the clock reading — which is ≥ the prior `updated_at` whenever the clock has
not run backwards since the last write. -/
theorem C3_update_status_valid (j : Job) (new_status now : String)
    (hmem : new_status ∈ Job.VALID_STATUSES) (hclock : tsLE j.updated_at now) :
    (j.update_status new_status now).1 = true ∧
    (j.update_status new_status now).2.status = new_status ∧
    (j.update_status new_status now).2.updated_at = now ∧
    tsLE j.updated_at (j.update_status new_status now).2.updated_at := by
  unfold Job.update_status
  rw [if_pos hmem]
  exact ⟨rfl, rfl, rfl, hclock⟩

/-- C3 witness: `update_status("Completed")` on the sample job (currently
`"Scheduled"`) succeeds and refreshes `updated_at`. -/
theorem C3_witness :
    (sampleJob.update_status "Completed" "2025-01-02 10:00").1 = true ∧
    (sampleJob.update_status "Completed" "2025-01-02 10:00").2.status = "Completed" ∧
    (sampleJob.update_status "Completed" "2025-01-02 10:00").2.updated_at = "2025-01-02 10:00" ∧
    tsLE sampleJob.updated_at (sampleJob.update_status "Completed" "2025-01-02 10:00").2.updated_at :=
  C3_update_status_valid sampleJob "Completed" "2025-01-02 10:00" (by decide) (by decide)

/-- C4: for every job and every `new_status` outside the configured
enumeration, `update_status` returns `false` without raising and leaves the
job entirely unchanged, `status` and `updated_at` included. -/
theorem C4_update_status_invalid (j : Job) (new_status now : String)
    (h : new_status ∉ Job.VALID_STATUSES) :
    j.update_status new_status now = (false, j) := by
  unfold Job.update_status
  rw [if_neg h]

/-- C4 witness: `update_status("NotAStatus")` fails and changes nothing. -/
theorem C4_witness :
    sampleJob.update_status "NotAStatus" "2025-01-02 10:00" = (false, sampleJob) :=
  C4_update_status_invalid sampleJob "NotAStatus" "2025-01-02 10:00" (by decide)

/-- C8: `Job` creation fails with the `InvalidDateTime` `ValueError` exactly
when `scheduled_datetime_str` does not parse against `YYYY-MM-DD HH:MM`, and
succeeds on that field whenever it does parse (given a convertible price) —
the check is made by the entity constructor itself. -/
theorem C8_datetime_validation (freshId now cid svc orig dest notes status : String)
    (jid : Option String) (price : PyVal) (q : Rat)
    (hp : pyFloat price = Except.ok q) (s : String) :
    (strptimeYmdHM s = Option.none →
      Job.init freshId now cid svc s orig dest price notes jid status =
        Except.error (PyError.valueError INVALID_DT_MSG)) ∧
    (∀ dt, strptimeYmdHM s = some dt →
      ∃ j, Job.init freshId now cid svc s orig dest price notes jid status =
        Except.ok j) := by
  constructor
  · intro h
    unfold Job.init
    rw [h]
  · intro dt h
    unfold Job.init
    rw [h, hp]
    exact ⟨_, rfl⟩

/-- C8 witness: `"2025-13-40 99:99"` is rejected with the `InvalidDateTime`
message and `"2025-09-15 14:30"` is accepted. -/
theorem C8_witness :
    (Job.init "J1" "2025-01-01 10:00" "C1" "Haul Out" "2025-13-40 99:99" "A" "B"
        (PyVal.num 100) "" Option.none "Scheduled" =
      Except.error (PyError.valueError INVALID_DT_MSG)) ∧
    (∃ j, Job.init "J1" "2025-01-01 10:00" "C1" "Haul Out" "2025-09-15 14:30" "A" "B"
        (PyVal.num 100) "" Option.none "Scheduled" = Except.ok j) :=
  ⟨(C8_datetime_validation "J1" "2025-01-01 10:00" "C1" "Haul Out" "A" "B" ""
      "Scheduled" Option.none (PyVal.num 100) 100 rfl "2025-13-40 99:99").1 (by decide),
   (C8_datetime_validation "J1" "2025-01-01 10:00" "C1" "Haul Out" "A" "B" ""
      "Scheduled" Option.none (PyVal.num 100) 100 rfl "2025-09-15 14:30").2
     ⟨2025, 9, 15, 14, 30⟩ (by decide)⟩

/-- C2 counterexample: `Job` creation with the negative price `-5` succeeds
and stores `quoted_price = -5` — a negative price is silently accepted, not
rejected with an error. -/
theorem C2_counterexample :
    Job.init "J1" "2025-01-01 10:00" "C1" "Haul Out" "2025-09-15 14:30" "A" "B"
        (PyVal.num (-5)) "" Option.none "Scheduled" =
      Except.ok
        { job_id := "J1", customer_id := "C1", service_type := "Haul Out",
          scheduled_datetime := "2025-09-15 14:30", origin_location := "A",
          destination_location := "B", quoted_price := -5,
          status := "Scheduled", notes := "", created_at := "2025-01-01 10:00",
          updated_at := "2025-01-01 10:00" } := by
  decide

/-- C2 (amended): `quoted_price` goes through `float(...)` unchecked — input
that `float` cannot convert (non-numeric text, `None`) makes creation fail
with that conversion error, while every convertible input, negative numbers
included, is stored verbatim: never rejected and never clamped. -/
theorem C2_amended_price (freshId now cid svc sdt orig dest notes status : String)
    (jid : Option String) (price : PyVal) (dt : DateTime)
    (hdt : strptimeYmdHM sdt = some dt) :
    (∀ e, pyFloat price = Except.error e →
      Job.init freshId now cid svc sdt orig dest price notes jid status =
        Except.error e) ∧
    (∀ q, pyFloat price = Except.ok q →
      ∃ j, Job.init freshId now cid svc sdt orig dest price notes jid status =
          Except.ok j ∧ j.quoted_price = q) := by
  constructor
  · intro e h
    unfold Job.init
    rw [hdt, h]
  · intro q h
    unfold Job.init
    rw [hdt, h]
    exact ⟨_, rfl, rfl⟩

/-- C2 witness: `float("abc")` fails so creation fails; `float(-5)` succeeds
so creation succeeds with the negative price stored. -/
theorem C2_witness :
    (Job.init "J1" "2025-01-01 10:00" "C1" "Haul Out" "2025-09-15 14:30" "A" "B"
        (PyVal.str "abc") "" Option.none "Scheduled" =
      Except.error (PyError.valueError "could not convert string to float")) ∧
    (∃ j, Job.init "J1" "2025-01-01 10:00" "C1" "Haul Out" "2025-09-15 14:30" "A" "B"
        (PyVal.num (-5)) "" Option.none "Scheduled" = Except.ok j ∧
      j.quoted_price = -5) :=
  ⟨(C2_amended_price "J1" "2025-01-01 10:00" "C1" "Haul Out" "2025-09-15 14:30"
      "A" "B" "" "Scheduled" Option.none (PyVal.str "abc") ⟨2025, 9, 15, 14, 30⟩
      (by decide)).1 (PyError.valueError "could not convert string to float") (by decide),
   (C2_amended_price "J1" "2025-01-01 10:00" "C1" "Haul Out" "2025-09-15 14:30"
      "A" "B" "" "Scheduled" Option.none (PyVal.num (-5)) ⟨2025, 9, 15, 14, 30⟩
      (by decide)).2 (-5) rfl⟩

/-- C9: `add_customer` never stores anything — for every manager state and
every collected field set it raises `NameError` on the unbound local
`boat_length` before the `Customer` constructor can run, so no customer id
is ever returned and `find_customer` can never see the input back. -/
theorem C9_add_customer_raises (m : Manager)
    (freshId name phone email address bmake bmodel : String) :
    m.add_customer freshId name phone email address bmake bmodel =
      Except.error (PyError.nameError "boat_length") := rfl

/-- C1: round-tripping a `Job` through `to_dict` then `from_dict` never
returns the job — `to_dict` emits the keys `scheduled_datetime`,
`created_at` and `updated_at`, none of which `Job.__init__` accepts, so
`Job(**data)` raises `TypeError` (and the required `scheduled_datetime_str`
is missing besides; the timestamps could not round-trip in any case, since
the constructor resets them from the clock). -/
theorem C1_job_roundtrip_raises (freshId now : String) (j : Job) :
    Job.from_dict freshId now j.to_dict =
      Except.error (PyError.typeError "unexpected keyword argument") := by
  unfold Job.from_dict Job.to_dict
  rfl

/-- C7 counterexample: two concrete loads that are errors, not empty
collections — the cleaned variant on a corrupt file of undecodable bytes
(the `UnicodeDecodeError` matches neither `except` clause), and the v2
variant on an existing but unreadable file (the `IOError` escapes). -/
theorem C7_counterexample :
    load_data (FileState.present FileContent.undecodable) =
        Except.error PyError.unicodeDecodeError ∧
    load_data_v2 FileState.unreadable = Except.error PyError.ioError :=
  ⟨rfl, rfl⟩

/-- C7 (amended): loading yields an empty collection, not an error, on a
missing file in both variants and on decodable-but-unparseable contents
(`JSONDecodeError`) in both variants; the cleaned variant additionally
yields empty on an unreadable file, while v2 propagates the `IOError`
there; and in both variants a corrupt file of undecodable bytes propagates
the `UnicodeDecodeError`. -/
theorem C7_amended_load :
    (load_data FileState.missing = Except.ok [] ∧
      load_data FileState.unreadable = Except.ok [] ∧
      load_data (FileState.present FileContent.badJson) = Except.ok []) ∧
    (load_data_v2 FileState.missing = Except.ok [] ∧
      load_data_v2 (FileState.present FileContent.badJson) = Except.ok []) ∧
    (load_data (FileState.present FileContent.undecodable) =
        Except.error PyError.unicodeDecodeError ∧
      load_data_v2 (FileState.present FileContent.undecodable) =
        Except.error PyError.unicodeDecodeError ∧
      load_data_v2 FileState.unreadable = Except.error PyError.ioError) :=
  ⟨⟨rfl, rfl, rfl⟩, ⟨rfl, rfl⟩, rfl, rfl, rfl⟩

/-- C10: a `status` argument outside `VALID_STATUSES` does not make the
constructor fail — the job is built successfully and silently carries the
default `"Scheduled"`, with no report to the caller. -/
theorem C10_invalid_status_coerced (freshId now cid svc sdt orig dest notes : String)
    (jid : Option String) (price : PyVal) (dt : DateTime) (q : Rat)
    (hdt : strptimeYmdHM sdt = some dt) (hp : pyFloat price = Except.ok q)
    (status : String) (hst : status ∉ Job.VALID_STATUSES) :
    ∃ j, Job.init freshId now cid svc sdt orig dest price notes jid status =
        Except.ok j ∧ j.status = "Scheduled" := by
  unfold Job.init
  rw [hdt, hp]
  refine ⟨_, rfl, ?_⟩
  simp only [if_neg hst]

/-- C10 witness: deserialization-style construction with the tampered status
`"Exploded"` succeeds and silently yields `"Scheduled"`. -/
theorem C10_witness :
    ∃ j, Job.init "J1" "2025-01-01 10:00" "C1" "Haul Out" "2025-09-15 14:30" "A" "B"
        (PyVal.num 100) "" Option.none "Exploded" = Except.ok j ∧
      j.status = "Scheduled" :=
  C10_invalid_status_coerced "J1" "2025-01-01 10:00" "C1" "Haul Out"
    "2025-09-15 14:30" "A" "B" "" Option.none (PyVal.num 100)
    ⟨2025, 9, 15, 14, 30⟩ 100 (by decide) rfl "Exploded" (by decide)

/-- C5: whenever a customer id is entered that is absent from the customer
mapping, `add_job` reports the unknown customer and never inserts a job —
the job mapping is returned unchanged and no job id is produced, whatever
the rest of the interaction is. -/
theorem C5_add_job_unknown_customer (m : Manager) (freshCid : String)
    (inp : AddJobInputs)
    (hne : m.customers.isEmpty = false)
    (hns : pyLower inp.customer_id_input ≠ "search")
    (habs : m.customers.any (fun kv => kv.1 = inp.customer_id_input) = false) :
    "Customer ID not found." ∈ (m.add_job freshCid inp).messages ∧
    (m.add_job freshCid inp).manager.jobs = m.jobs ∧
    ∀ jid, (m.add_job freshCid inp).outcome ≠ Except.ok (some jid) := by
  unfold Manager.add_job
  rw [hne]
  simp only [Bool.false_eq_true, if_false, if_neg hns, habs]
  by_cases hy : pyLower inp.add_as_new = "y"
  · rw [if_pos hy]
    simp [Manager.add_customer, unboundLocal]
  · rw [if_neg hy]
    simp

/-- The interaction used to witness C5: the unknown id `"ZZZ"` is entered
and the offer to create a customer is declined. -/
def sampleAddJobInputs : AddJobInputs :=
  { add_customer_now := "n", customer_id_input := "ZZZ", search_term := "",
    add_as_new := "n", nc_name := "", nc_phone := "", nc_email := "",
    nc_address := "", nc_boat_make := "", nc_boat_model := "",
    service_type := "Haul Out", origin_location := "Marina A",
    destination_location := "Yard B" }

/-- C5 witness: entering the absent id `"ZZZ"` on the sample manager reports
the unknown customer and leaves the job mapping unchanged. -/
theorem C5_witness :
    "Customer ID not found." ∈ (sampleManager.add_job "F1" sampleAddJobInputs).messages ∧
    (sampleManager.add_job "F1" sampleAddJobInputs).manager.jobs = sampleManager.jobs ∧
    ∀ jid, (sampleManager.add_job "F1" sampleAddJobInputs).outcome ≠ Except.ok (some jid) :=
  C5_add_job_unknown_customer sampleManager "F1" sampleAddJobInputs
    (by decide) (by decide) (by decide)

/-- C6 counterexample: in the v2 "View Jobs" branch, two jobs inserted out
of chronological order and viewed with the `"All"` filter come back in
insertion order — the returned sequence is not sorted ascending by
`scheduled_datetime`. -/
theorem C6_counterexample :
    ¬ List.Sorted dictTsLE (view_jobs_v2 v2SampleJobs "All") := by
  decide

/-- C6 (amended): the cleaned variant's `list_jobs` returns (given that
every stored timestamp parses, which holds of every job the constructor
admits) exactly the jobs whose status equals the filter when an effective
filter survives, exactly all jobs when the filter is blank or unrecognized
(the filter is dropped, not treated as empty-set), sorted ascending by
`scheduled_datetime`; the v2 "View Jobs" branch likewise filters by exact
status equality (`"All"` meaning no filter) but returns the jobs in
insertion order — it never sorts. -/
theorem C6_amended_list_jobs (m : Manager) (filterInput : String)
    (hwf : ∀ p ∈ m.jobs, (strptimeYmdHM p.2.scheduled_datetime).isSome = true)
    (vjobs : List (String × Dict)) (vfilter : String) :
    (∃ l, m.list_jobs filterInput = Except.ok l ∧
      List.Sorted jobLE l ∧
      (∀ f, statusFilterOf filterInput = some f →
        List.Perm l ((m.jobs.map Prod.snd).filter (fun j => j.status = f))) ∧
      (statusFilterOf filterInput = Option.none →
        List.Perm l (m.jobs.map Prod.snd))) ∧
    (List.Sublist (view_jobs_v2 vjobs vfilter) (vjobs.map Prod.snd) ∧
      (vfilter = "All" → view_jobs_v2 vjobs vfilter = vjobs.map Prod.snd) ∧
      (vfilter ≠ "All" → view_jobs_v2 vjobs vfilter =
        (vjobs.map Prod.snd).filter
          (fun j => dlookup j "status" = some (PyVal.str vfilter)))) := by
  constructor
  case right =>
    unfold view_jobs_v2
    by_cases hall : vfilter = "All"
    · rw [if_neg (fun h => h hall)]
      exact ⟨List.Sublist.refl _, fun _ => rfl, fun h => absurd hall h⟩
    · rw [if_pos hall]
      exact ⟨List.filter_sublist _, fun h => absurd h hall, fun _ => rfl⟩
  unfold Manager.list_jobs
  by_cases hemp : m.jobs.isEmpty = true
  · have hnil : m.jobs = [] := List.isEmpty_iff.mp hemp
    rw [if_pos hemp]
    exact ⟨[], rfl, List.sorted_nil, fun f _ => by simp [hnil], fun _ => by simp [hnil]⟩
  · rw [if_neg hemp]
    have hall : (displayedJobs m filterInput).all
        (fun j => (strptimeYmdHM j.scheduled_datetime).isSome) = true := by
      rw [List.all_eq_true]
      intro j hj
      obtain ⟨p, hp, rfl⟩ := List.mem_map.mp (List.mem_of_mem_filter hj)
      exact hwf p hp
    rw [if_pos hall]
    refine ⟨_, rfl, List.sorted_insertionSort jobLE _, ?_, ?_⟩
    · intro f hf
      refine (List.perm_insertionSort jobLE _).trans ?_
      unfold displayedJobs
      rw [hf]
    · intro hf
      refine (List.perm_insertionSort jobLE _).trans ?_
      unfold displayedJobs
      rw [hf]
      show List.Perm (List.filter (fun _ => true) (m.jobs.map Prod.snd)) _
      rw [List.filter_true]

/-- The three-job manager of the spec's ordering example, with timestamps
`2025-01-01 10:00`, `2025-06-01 09:00` and `2024-12-25 08:00`. -/
def orderingManager : Manager :=
  { customers := [("C1", sampleCustomer)],
    jobs :=
      [("J1", { sampleJob with job_id := "J1", scheduled_datetime := "2025-01-01 10:00" }),
       ("J2", { sampleJob with job_id := "J2", scheduled_datetime := "2025-06-01 09:00" }),
       ("J3", { sampleJob with job_id := "J3", scheduled_datetime := "2024-12-25 08:00" })] }

/-- C6 witness: on the three-job example the cleaned `list_jobs` with a
blank filter returns all three jobs sorted ascending by
`scheduled_datetime`, while the v2 branch with `"All"` selected returns the
two-job session unchanged, in insertion order. -/
theorem C6_witness :
    ((∃ l, orderingManager.list_jobs "" = Except.ok l ∧
      List.Sorted jobLE l ∧
      (∀ f, statusFilterOf "" = some f →
        List.Perm l ((orderingManager.jobs.map Prod.snd).filter (fun j => j.status = f))) ∧
      (statusFilterOf "" = Option.none →
        List.Perm l (orderingManager.jobs.map Prod.snd))) ∧
    (List.Sublist (view_jobs_v2 v2SampleJobs "All") (v2SampleJobs.map Prod.snd) ∧
      ("All" = "All" → view_jobs_v2 v2SampleJobs "All" = v2SampleJobs.map Prod.snd) ∧
      ("All" ≠ "All" → view_jobs_v2 v2SampleJobs "All" =
        (v2SampleJobs.map Prod.snd).filter
          (fun j => dlookup j "status" = some (PyVal.str "All"))))) :=
  C6_amended_list_jobs orderingManager "" (by decide) v2SampleJobs "All"
